import Mathlib

/-!
Verification of the WebWii file-import core: the BootMii backup validator
(`bootmii-import.js`), the WAD/DOL handler (`wad-handler.js` and its
near-duplicate `part_003`), the shared confirmation modal (`part_004`), and
the staging of ROMs into the virtual filesystem (`dolphin-loader.js`,
`part_002`).

Buffers are modelled as a declared byte length plus a byte-lookup function
(a `DataView` over an `ArrayBuffer`); 32-bit reads take bytes modulo 256 and
fail (as the JS `RangeError`) when the 4-byte read crosses the end of the
buffer.  Status/warning strings that the source builds through the
floating-point `formatBytes` helper are modelled as message templates
carrying their numeric arguments; fixed literal strings are kept verbatim.
-/

namespace WebWii

/-- A JS `ArrayBuffer` viewed through a `DataView`: a byte length and the
byte at each index (meaningful for indices below `byteLength`). -/
structure ArrayBuffer where
  byteLength : Nat
  byteAt : Nat → Nat

/-- The exception a `DataView` read throws when it crosses the end of the
buffer. -/
inductive JsError
  | rangeError
deriving DecidableEq

/-- The value of a little-endian 32-bit read at offset `i` (bytes are taken
modulo 256, as stored in an `ArrayBuffer`). -/
def wordLE (buf : ArrayBuffer) (i : Nat) : Nat :=
  buf.byteAt i % 256 + 256 * (buf.byteAt (i + 1) % 256) +
    65536 * (buf.byteAt (i + 2) % 256) + 16777216 * (buf.byteAt (i + 3) % 256)

/-- The value of a big-endian 32-bit read at offset `i`. -/
def wordBE (buf : ArrayBuffer) (i : Nat) : Nat :=
  16777216 * (buf.byteAt i % 256) + 65536 * (buf.byteAt (i + 1) % 256) +
    256 * (buf.byteAt (i + 2) % 256) + buf.byteAt (i + 3) % 256

/-- `view.getUint32(i, true)`: little-endian read, throwing `RangeError`
when the 4-byte window does not fit in the buffer. -/
def getUint32LE (buf : ArrayBuffer) (i : Nat) : Except JsError Nat :=
  if i + 4 ≤ buf.byteLength then .ok (wordLE buf i) else .error .rangeError

/-- `view.getUint32(i, false)`: big-endian read with the same bounds
behaviour. -/
def getUint32BE (buf : ArrayBuffer) (i : Nat) : Except JsError Nat :=
  if i + 4 ≤ buf.byteLength then .ok (wordBE buf i) else .error .rangeError

/-- `bootmii-import.js` line 7: standard BootMii backup size (512 MB). -/
def BOOTMII_STANDARD_SIZE : Nat := 512 * 1024 * 1024

/-- `bootmii-import.js` line 12: tolerance for the file-size check (1 MB). -/
def SIZE_TOLERANCE : Nat := 1024 * 1024

/-- The status and warning messages the import code produces.  The two
size messages interpolate `formatBytes(size)` and
`formatBytes(BOOTMII_STANDARD_SIZE)` in the source, so they are modelled as
templates carrying both byte counts; the other messages are fixed
literals. -/
inductive BackupMessage
  | blank
  | sizeMismatch (actual standard : Nat)
  | sizeDiffers (actual standard : Nat)
  | backupEmpty
  | zeroContent
deriving DecidableEq

/-- The literal text of the `backupEmpty` message in `bootmii-import.js`
line 172. -/
def backupEmptyText : String := "Error: Backup file is empty."

/-- Does a message template interpolate the actual and standard sizes? -/
def mentionsBothSizes : BackupMessage → Bool
  | .sizeMismatch _ _ => true
  | .sizeDiffers _ _ => true
  | _ => false

/-- Result shape of `validateBackupSize`. -/
structure SizeVerdict where
  isValid : Bool
  isWarning : Bool
  message : BackupMessage
deriving DecidableEq

/-- `bootmii-import.js` lines 91-113: `validateBackupSize(size)`. -/
def validateBackupSize (size : Nat) : SizeVerdict :=
  let difference := ((size : Int) - (BOOTMII_STANDARD_SIZE : Int)).natAbs
  if difference > SIZE_TOLERANCE * 10 then
    { isValid := false, isWarning := false,
      message := BackupMessage.sizeMismatch size BOOTMII_STANDARD_SIZE }
  else if difference > SIZE_TOLERANCE then
    { isValid := true, isWarning := true,
      message := BackupMessage.sizeDiffers size BOOTMII_STANDARD_SIZE }
  else
    { isValid := true, isWarning := false, message := BackupMessage.blank }

/-- Follows the spec's words (section 4.3, size-tolerance check): compute
`delta` as the absolute difference between the buffer length and the exact
size; reject with an error naming both sizes when `delta` exceeds ten times
the tolerance; accept with a warning naming both sizes when `delta` exceeds
the tolerance; otherwise accept with no note.  Exact size 512 MiB and
tolerance 1 MiB are the FullBackupImage profile constants. -/
def spec_sizeToleranceCheck (length : Nat) : SizeVerdict :=
  let exactSize : Nat := 512 * 1024 * 1024
  let tolerance : Nat := 1024 * 1024
  let delta := ((length : Int) - (exactSize : Int)).natAbs
  if delta > 10 * tolerance then
    { isValid := false, isWarning := false,
      message := BackupMessage.sizeMismatch length exactSize }
  else if delta > tolerance then
    { isValid := true, isWarning := true,
      message := BackupMessage.sizeDiffers length exactSize }
  else
    { isValid := true, isWarning := false, message := BackupMessage.blank }

/-- Result shape of `performBackupValidation`: the source returns
`isValid`, a single `message` string (empty on success) and a list of
warning strings. -/
structure BackupVerdict where
  isValid : Bool
  message : BackupMessage
  warnings : List BackupMessage
deriving DecidableEq

/-- `bootmii-import.js` lines 185-190: the zero-content scan loop
`for (i = 0; i < Math.min(1024, byteLength); i += 4)`, reading
`getUint32(i, true)` and breaking with `hasData = true` at the first
nonzero word.  The loop advances `i` by 4 while `i < min 1024 byteLength`,
so it iterates at most 257 times; the fuel argument makes the recursion
structural and never runs out from the top-level call with fuel 257. -/
def scanFrom (buf : ArrayBuffer) : Nat → Nat → Except JsError Bool
  | 0, _ => .ok false
  | fuel + 1, i =>
    if i < min 1024 buf.byteLength then
      match getUint32LE buf i with
      | .error e => .error e
      | .ok v => if v ≠ 0 then .ok true else scanFrom buf fuel (i + 4)
    else .ok false

/-- The same loop with the bounds check of the read elided: the pure value
the scan computes whenever every read stays inside the buffer. -/
def anyNonZeroFrom (buf : ArrayBuffer) : Nat → Nat → Bool
  | 0, _ => false
  | fuel + 1, i =>
    if i < min 1024 buf.byteLength then
      if wordLE buf i ≠ 0 then true else anyNonZeroFrom buf fuel (i + 4)
    else false

/-- All 256 words scanned by the zero-content heuristic (little-endian
reads at offsets 0, 4, ..., 1020) are zero. -/
def allScannedWordsZero (buf : ArrayBuffer) : Bool :=
  (List.range 256).all fun k => wordLE buf (4 * k) == 0

/-- `bootmii-import.js` lines 165-201: `performBackupValidation`.  Rejects
an empty buffer with a single error, then runs the zero-content scan and
appends one warning when no data was found. -/
def performBackupValidation (buf : ArrayBuffer) : Except JsError BackupVerdict :=
  if buf.byteLength = 0 then
    .ok { isValid := false, message := BackupMessage.backupEmpty, warnings := [] }
  else
    match scanFrom buf 257 0 with
    | .error e => .error e
    | .ok hasData =>
      .ok { isValid := true, message := BackupMessage.blank,
            warnings := if hasData then [] else [BackupMessage.zeroContent] }

/-- `wad-handler.js` lines 106-124: `validateWadFile`.  Returns false below
64 bytes; otherwise reads the big-endian word at offset 0 and accepts
whether or not it matches one of the two known signatures ("still accept
for demo purposes"). -/
def validateWadFile (buf : ArrayBuffer) : Except JsError Bool :=
  if buf.byteLength < 64 then .ok false
  else
    match getUint32BE buf 0 with
    | .error e => .error e
    | .ok headerSignature =>
      if headerSignature = 0x49730000 ∨ headerSignature = 0x69620000 then .ok true
      else .ok true

/-- `wad-handler.js` line 12. -/
def DOL_TEXT_OFFSET : Nat := 0x00

/-- `wad-handler.js` line 13. -/
def DOL_DATA_OFFSET : Nat := 0x1C

/-- `wad-handler.js` lines 129-149: `validateDolFile`.  Returns false below
0x100 bytes; otherwise reads the two offset-table entries and accepts in
every branch ("if validation fails, still accept for demo purposes"). -/
def validateDolFile (buf : ArrayBuffer) : Except JsError Bool :=
  if buf.byteLength < 0x100 then .ok false
  else
    match getUint32BE buf DOL_TEXT_OFFSET, getUint32BE buf DOL_DATA_OFFSET with
    | .error e, _ => .error e
    | _, .error e => .error e
    | .ok textOffset0, .ok dataOffset0 =>
      if 0 < textOffset0 ∧ textOffset0 < buf.byteLength then .ok true
      else if 0 < dataOffset0 ∧ dataOffset0 < buf.byteLength then .ok true
      else .ok true

/-- JS `filename.split('.')` over the character list: splits at every dot,
always returning at least one (possibly empty) segment. -/
def splitOnDot : List Char → List (List Char)
  | [] => [[]]
  | c :: cs =>
    let rest := splitOnDot cs
    if c = '.' then [] :: rest
    else
      match rest with
      | [] => [[c]]
      | seg :: segs => (c :: seg) :: segs

/-- `wad-handler.js` line 92: `filename.split('.').pop().toLowerCase()`.
`split` never yields an empty array, so `pop` is the last segment. -/
def fileExtension (filename : String) : String :=
  ⟨((splitOnDot filename.data).getLastD []).map Char.toLower⟩

/-- `wad-handler.js` lines 91-101: `detectFileType(filename, arrayBuffer)`.
The lowercased extension selects the candidate type; the matching validator
then decides between the type tag and `null` (modelled as `Option`). -/
def detectFileType (filename : String) (buf : ArrayBuffer) :
    Except JsError (Option String) :=
  let extension := fileExtension filename
  if extension = "wad" then
    (validateWadFile buf).map fun ok => if ok then some "WAD" else none
  else if extension = "dol" then
    (validateDolFile buf).map fun ok => if ok then some "DOL" else none
  else
    .ok none

/-- The structural profiles of spec section 3. -/
inductive FileProfile
  | containerArchive
  | executableImage
  | fullBackupImage
deriving DecidableEq

/-- Staging failure: the only error the spec's `stage` raises. -/
inductive StageError
  | invalidPath
deriving DecidableEq

/-- The fixed top-level roots of the staging namespace: the four
directories `DolphinLoader.setupFileSystem` creates (`dolphin-loader.js`
line 195) plus the `/tmp` root `loadROMIntoRetroArch` writes under
(`part_002` line 212). -/
def STAGING_ROOTS : List String := ["/roms", "/saves", "/states", "/user", "/tmp"]

/-- Does `s` begin with `pre` (character-for-character)? -/
def beginsWith (pre s : String) : Bool := pre.data.isPrefixOf s.data

/-- Is the path rooted under one of the fixed top-level segments? -/
def isStagingRooted (path : String) : Bool :=
  STAGING_ROOTS.any fun root => beginsWith root path

/-- A staged entry, per spec section 3. -/
structure StagedEntry where
  virtualPath : String
  profile : FileProfile
  buffer : ArrayBuffer
  createdAt : Nat

/-- Modelled from the spec: the source contains no `stage` function — it
only creates the root directories (`dolphin-loader.js`,
`setupFileSystem`) and writes ROMs at the fixed path `'/tmp/' + filename`
through the external Emscripten `Module.FS` (`part_002`,
`loadROMIntoRetroArch`).  Per spec sections 3 and 4.4: `stage` fails with
`InvalidPath` if the path does not begin with one of the fixed top-level
roots, and otherwise overwrites any entry at the same path
(last-write-wins, key uniqueness). -/
def stage (ns : List StagedEntry) (path : String) (profile : FileProfile)
    (buf : ArrayBuffer) (now : Nat) : Except StageError (List StagedEntry) :=
  if isStagingRooted path then
    .ok ({ virtualPath := path, profile := profile, buffer := buf, createdAt := now } ::
      ns.filter fun e => e.virtualPath != path)
  else
    .error .invalidPath

/-- `part_002` line 212: the path `loadROMIntoRetroArch` stages a ROM
under. -/
def romPath (filename : String) : String := "/tmp/" ++ filename

/-- Outcome of asking for a destructive NAND operation. -/
inductive RequestResult
  | started
  | operationInProgress
deriving DecidableEq

/-- One simulated install: the file it targets and the progress of its
`setInterval` ticker (`wad-handler.js` lines 214-244).  An operation is
Running while its progress is below 100. -/
structure NandOperation where
  filename : String
  fileType : String
  progress : Nat
deriving DecidableEq

/-- `wad-handler.js` lines 214-244: `performNandInstallation` starts a new
simulated install unconditionally — the source keeps no registry of
running operations and performs no check before calling `setInterval`, so
the request always succeeds and one more ticker joins whatever is already
running. -/
def performNandInstallation (running : List NandOperation)
    (filename fileType : String) : RequestResult × List NandOperation :=
  (.started, { filename := filename, fileType := fileType, progress := 0 } :: running)

/-- One `setInterval` tick of a simulated install: progress advances by 10
and the interval is cleared (the operation leaves the Running set) once it
reaches 100. -/
def tickInstall (op : NandOperation) : Option NandOperation :=
  if 100 ≤ op.progress + 10 then none
  else some { op with progress := op.progress + 10 }

/-- Observable effects a modal button click produces.  Callbacks are
identified by number so that "which callback ran" is part of the trace. -/
inductive NandEffect
  | hideModal
  | invokeConfirm (callback : Nat)
  | progressEvent (percent : Nat)
  | stageWrite (path : String)
deriving DecidableEq

/-- The confirmation modal: its visibility, message, and the listener
lists of the confirm and cancel buttons.  A confirm listener carries the
`onConfirm` callback it closes over (`none` models a null callback, which
the `if (onConfirm)` guard skips). -/
structure NandModal where
  visible : Bool
  message : String
  confirmListeners : List (Option Nat)
  cancelListeners : List Unit
deriving DecidableEq

/-- `part_004` lines 45-70: `showNandWarning(message, onConfirm)`.
`cloneNode(true)` copies each button without its event listeners and
`replaceChild` swaps the clone in, so both listener lists restart empty;
one listener is then added to each fresh button. -/
def showNandWarning (_modal : NandModal) (message : String)
    (onConfirm : Option Nat) : NandModal :=
  { visible := true
    message := message
    confirmListeners := [] ++ [onConfirm]
    cancelListeners := [] ++ [()] }

/-- Clicking the confirm button: every listener on the button runs; each
hides the modal and then invokes its callback when one was supplied
(`part_004` lines 62-65). -/
def clickConfirm (modal : NandModal) : NandModal × List NandEffect :=
  ({ modal with visible := false },
    (modal.confirmListeners.map fun cb =>
      NandEffect.hideModal :: cb.toList.map NandEffect.invokeConfirm).flatten)

/-- Clicking the cancel button: every listener on the button runs; each
only hides the modal (`part_004` lines 67-69). -/
def clickCancel (modal : NandModal) : NandModal × List NandEffect :=
  ({ modal with visible := false },
    modal.cancelListeners.map fun _ => NandEffect.hideModal)

/-! Helper lemmas shared between the claim theorems. -/

/-- The WAD check depends only on the byte length: below 64 bytes it is
false, and from 64 bytes on the signature comparison accepts in both
branches. -/
theorem validateWadFile_eq (buf : ArrayBuffer) :
    validateWadFile buf = Except.ok (decide (64 ≤ buf.byteLength)) := by
  unfold validateWadFile
  by_cases h : buf.byteLength < 64
  · rw [if_pos h, decide_eq_false (by omega)]
  · rw [if_neg h]
    unfold getUint32BE
    rw [if_pos (by omega : 0 + 4 ≤ buf.byteLength)]
    dsimp only
    rw [ite_self, decide_eq_true (by omega : 64 ≤ buf.byteLength)]

/-- The DOL check depends only on the byte length: below 256 bytes it is
false, and from 256 bytes on every branch accepts. -/
theorem validateDolFile_eq (buf : ArrayBuffer) :
    validateDolFile buf = Except.ok (decide (256 ≤ buf.byteLength)) := by
  unfold validateDolFile
  by_cases h : buf.byteLength < 0x100
  · rw [if_pos h, decide_eq_false (by omega)]
  · rw [if_neg h]
    unfold getUint32BE DOL_TEXT_OFFSET DOL_DATA_OFFSET
    rw [if_pos (by omega : 0 + 4 ≤ buf.byteLength),
      if_pos (by omega : 0x1C + 4 ≤ buf.byteLength)]
    dsimp only
    rw [ite_self, ite_self, decide_eq_true (by omega : 256 ≤ buf.byteLength)]

/-! The claim theorems. -/

/-- Claim C1: for every FullBackupImage buffer, the size-tolerance check
computes the absolute difference between the buffer length and 512 MiB;
above 10 MiB it rejects with an error naming both sizes, above 1 MiB it
accepts with a warning naming both sizes, and otherwise it accepts with no
note.  `validateBackupSize` agrees with the spec's description on every
size, and the spec's 11-MiB-over example is rejected with the error naming
both sizes. -/
theorem validateBackupSize_matches_spec :
    (∀ size, validateBackupSize size = spec_sizeToleranceCheck size) ∧
    validateBackupSize (512 * 1024 * 1024 + 11 * 1024 * 1024) =
      { isValid := false, isWarning := false,
        message := BackupMessage.sizeMismatch
          (512 * 1024 * 1024 + 11 * 1024 * 1024) (512 * 1024 * 1024) } := by
  constructor
  · intro size
    rfl
  · decide

/-- Claim C3 (code bug): the validator is claimed never to throw for any
readable buffer, but the zero-content loop guards only `i < min 1024
byteLength` while each read needs `i + 4 ≤ byteLength`; on a 2-byte buffer
the very first `getUint32` read crosses the end of the buffer and throws a
`RangeError` instead of returning a verdict. -/
theorem performBackupValidation_throws_on_short_buffer :
    performBackupValidation { byteLength := 2, byteAt := fun _ => 0 } =
      Except.error JsError.rangeError := rfl

/-- Claim C2 (amended): a buffer below the profile's minimum size is
always rejected with no further checks run, but the rejection does not
cite required vs actual sizes: `performBackupValidation` rejects an empty
buffer with the single fixed error that the backup file is empty (a
message carrying no sizes), and the WAD/DOL checks below 64/256 bytes
return plain `false` with no error message at all. -/
theorem minSize_rejection (buf : ArrayBuffer) :
    (buf.byteLength = 0 →
      performBackupValidation buf =
        Except.ok { isValid := false
                    message := BackupMessage.backupEmpty
                    warnings := [] }) ∧
    (buf.byteLength < 64 → validateWadFile buf = Except.ok false) ∧
    (buf.byteLength < 0x100 → validateDolFile buf = Except.ok false) ∧
    mentionsBothSizes BackupMessage.backupEmpty = false := by
  refine ⟨?_, ?_, ?_, rfl⟩
  · intro h
    unfold performBackupValidation
    rw [if_pos h]
  · intro h
    rw [validateWadFile_eq, decide_eq_false (by omega)]
  · intro h
    rw [validateDolFile_eq, decide_eq_false (by omega)]

/-- Witness for C2: the amended theorem applied to an empty buffer, a
63-byte buffer and a 255-byte buffer. -/
theorem minSize_rejection_witness :
    performBackupValidation { byteLength := 0, byteAt := fun _ => 0 } =
      Except.ok { isValid := false
                  message := BackupMessage.backupEmpty
                  warnings := [] } ∧
    validateWadFile { byteLength := 63, byteAt := fun _ => 0 } = Except.ok false ∧
    validateDolFile { byteLength := 255, byteAt := fun _ => 0 } = Except.ok false :=
  ⟨(minSize_rejection { byteLength := 0, byteAt := fun _ => 0 }).1 rfl,
   (minSize_rejection { byteLength := 63, byteAt := fun _ => 0 }).2.1 (by decide),
   (minSize_rejection { byteLength := 255, byteAt := fun _ => 0 }).2.2.1 (by decide)⟩

/-- Counterexample for C2: at the empty buffer the verdict has exactly one
error, but it is the fixed text that the backup file is empty — a message
template carrying no sizes, whose source string contains no digit — so the
error does not cite required vs actual size as the claim states. -/
theorem minSize_error_cites_no_sizes :
    performBackupValidation { byteLength := 0, byteAt := fun _ => 0 } =
      Except.ok { isValid := false
                  message := BackupMessage.backupEmpty
                  warnings := [] } ∧
    mentionsBothSizes BackupMessage.backupEmpty = false ∧
    backupEmptyText.data.all (fun c => !c.isDigit) = true :=
  ⟨rfl, rfl, by decide⟩

/-- Claim C5 (amended): the WAD and DOL header checks return true for
every buffer meeting their minimum lengths (64 and 256 bytes) regardless
of content, and return false — not true — for shorter buffers. -/
theorem wadDolChecks_content_blind (buf : ArrayBuffer) :
    (64 ≤ buf.byteLength → validateWadFile buf = Except.ok true) ∧
    (buf.byteLength < 64 → validateWadFile buf = Except.ok false) ∧
    (256 ≤ buf.byteLength → validateDolFile buf = Except.ok true) ∧
    (buf.byteLength < 256 → validateDolFile buf = Except.ok false) := by
  refine ⟨?_, ?_, ?_, ?_⟩ <;> intro h
  · rw [validateWadFile_eq, decide_eq_true h]
  · rw [validateWadFile_eq, decide_eq_false (by omega)]
  · rw [validateDolFile_eq, decide_eq_true h]
  · rw [validateDolFile_eq, decide_eq_false (by omega)]

/-- Witness for C5: the amended theorem applied at 64-, 10-, 256- and
10-byte buffers. -/
theorem wadDolChecks_content_blind_witness :
    validateWadFile { byteLength := 64, byteAt := fun _ => 0 } = Except.ok true ∧
    validateWadFile { byteLength := 10, byteAt := fun _ => 0 } = Except.ok false ∧
    validateDolFile { byteLength := 256, byteAt := fun _ => 7 } = Except.ok true ∧
    validateDolFile { byteLength := 10, byteAt := fun _ => 0 } = Except.ok false :=
  ⟨(wadDolChecks_content_blind { byteLength := 64, byteAt := fun _ => 0 }).1 (by decide),
   (wadDolChecks_content_blind { byteLength := 10, byteAt := fun _ => 0 }).2.1 (by decide),
   (wadDolChecks_content_blind { byteLength := 256, byteAt := fun _ => 7 }).2.2.1 (by decide),
   (wadDolChecks_content_blind { byteLength := 10, byteAt := fun _ => 0 }).2.2.2 (by decide)⟩

/-- Counterexample for C5: on the empty buffer both header checks return
false, not true, so they do not return true for every input buffer. -/
theorem wadDolChecks_counterexample :
    validateWadFile { byteLength := 0, byteAt := fun _ => 0 } = Except.ok false ∧
    validateDolFile { byteLength := 0, byteAt := fun _ => 0 } = Except.ok false ∧
    (Except.ok false ≠ (Except.ok true : Except JsError Bool)) := by
  refine ⟨rfl, rfl, fun h => ?_⟩
  exact Bool.noConfusion (Except.ok.inj h)

/-- Claim C8 (amended): the source keeps no per-path operation registry,
so a confirmed install request always starts a new Running operation —
even while another operation on the same file is Running — and no request
ever fails with an operation-in-progress error; after an operation
completes a new request succeeds as well, trivially, because every
request succeeds. -/
theorem nandInstallation_never_excludes (running : List NandOperation)
    (filename fileType : String) :
    (performNandInstallation running filename fileType).1 = RequestResult.started ∧
    (performNandInstallation
        (performNandInstallation running filename fileType).2 filename fileType).1 =
      RequestResult.started ∧
    2 ≤ ((performNandInstallation
        (performNandInstallation running filename fileType).2 filename fileType).2.countP
          fun op => op.filename == filename && decide (op.progress < 100)) := by
  refine ⟨rfl, rfl, ?_⟩
  simp [performNandInstallation, List.countP_cons]

/-- Counterexample for C8: with one install already Running on
"game.wad", a second confirmed request against the same file is started —
it does not fail with an operation-in-progress result — leaving two
Running operations on the same target. -/
theorem nandInstallation_concurrent_counterexample :
    (performNandInstallation
        (performNandInstallation [] "game.wad" "WAD").2 "game.wad" "WAD").1 =
      RequestResult.started ∧
    RequestResult.started ≠ RequestResult.operationInProgress ∧
    ((performNandInstallation
        (performNandInstallation [] "game.wad" "WAD").2 "game.wad" "WAD").2.countP
          fun op => op.filename == "game.wad" && decide (op.progress < 100)) = 2 := by
  refine ⟨rfl, by decide, by decide⟩

/-- Claim C9: cancelling at the confirmation gate only hides the modal:
the click produces exactly one hide effect — no callback invocation, no
progress event, no staging write — and the pending operation's callback
is discarded with the staging namespace untouched. -/
theorem cancelAtConfirmation_no_side_effects (modal : NandModal)
    (message : String) (onConfirm : Option Nat) :
    clickCancel (showNandWarning modal message onConfirm) =
      ({ visible := false, message := message,
         confirmListeners := [onConfirm], cancelListeners := [()] },
       [NandEffect.hideModal]) := rfl

/-- Claim C10: each confirmation request replaces both buttons with fresh
clones carrying no listeners, so after any sequence of requests a single
confirm click hides the modal and invokes exactly the most recent
callback, exactly once; callbacks from superseded requests are never
invoked. -/
theorem confirmClick_invokes_latest_only (modal : NandModal)
    (requests : List (String × Nat)) (message : String) (callback : Nat) :
    (clickConfirm (showNandWarning
        (requests.foldl (fun m r => showNandWarning m r.1 (some r.2)) modal)
        message (some callback))).2 =
      [NandEffect.hideModal, NandEffect.invokeConfirm callback] := rfl

/-- The `/tmp` root is a leading segment of every ROM staging path. -/
theorem beginsWith_tmp_romPath (filename : String) :
    beginsWith "/tmp" (romPath filename) = true := by
  obtain ⟨l⟩ := filename
  show List.isPrefixOf _ (String.data ("/tmp/" ++ String.mk l)) = true
  rw [String.data_append]
  simp [List.isPrefixOf]

/-- Claim C7: staging under a path that does not begin with one of the
fixed roots fails with `InvalidPath` and creates no entry; a successful
`stage` preserves the invariant that every staged path is rooted under one
of the fixed top-level segments; and the path the source actually stages
ROMs under, `'/tmp/' + filename`, is always rooted. -/
theorem staging_paths_rooted (ns : List StagedEntry) (path : String)
    (profile : FileProfile) (buf : ArrayBuffer) (now : Nat) (filename : String)
    (hns : ∀ e ∈ ns, isStagingRooted e.virtualPath = true) :
    (isStagingRooted path = false →
      stage ns path profile buf now = Except.error StageError.invalidPath) ∧
    (∀ updated, stage ns path profile buf now = Except.ok updated →
      ∀ e ∈ updated, isStagingRooted e.virtualPath = true) ∧
    isStagingRooted (romPath filename) = true := by
  refine ⟨?_, ?_, ?_⟩
  · intro h
    unfold stage
    rw [if_neg (by simp [h])]
  · intro updated hok e he
    unfold stage at hok
    by_cases hroot : isStagingRooted path
    · rw [if_pos hroot] at hok
      obtain rfl := Except.ok.inj hok
      rcases List.mem_cons.mp he with heq | hmem
      · rw [heq]
        exact hroot
      · exact hns e (List.mem_filter.mp hmem).1
    · rw [if_neg (by simp [Bool.eq_false_iff.mpr hroot])] at hok
      exact absurd hok (by simp)
  · unfold isStagingRooted STAGING_ROOTS
    simp only [List.any_cons, List.any_nil, Bool.or_eq_true]
    have h := beginsWith_tmp_romPath filename
    tauto

/-- Witness for C7: staging under "nand/title" (not rooted) fails with
`InvalidPath`, and the concrete ROM path "/tmp/mario.iso" is rooted. -/
theorem staging_paths_rooted_witness :
    stage [] "nand/title" FileProfile.containerArchive
        { byteLength := 1, byteAt := fun _ => 0 } 0 =
      Except.error StageError.invalidPath ∧
    isStagingRooted (romPath "mario.iso") = true := by
  have h := staging_paths_rooted [] "nand/title" FileProfile.containerArchive
    { byteLength := 1, byteAt := fun _ => 0 } 0 "mario.iso" (by simp)
  exact ⟨h.1 (by decide), h.2.2⟩

/-- While every read stays inside the buffer (4-aligned offsets, at least
1024 bytes available), the scan loop never throws and computes the same
value as its pure counterpart. -/
theorem scanFrom_eq_pure (buf : ArrayBuffer) (hlen : 1024 ≤ buf.byteLength) :
    ∀ fuel i, i % 4 = 0 →
      scanFrom buf fuel i = Except.ok (anyNonZeroFrom buf fuel i) := by
  intro fuel
  induction fuel with
  | zero => intro i _; rfl
  | succ fuel ih =>
    intro i hi
    have hmin : min 1024 buf.byteLength = 1024 := Nat.min_eq_left hlen
    by_cases hcond : i < min 1024 buf.byteLength
    · have hread : i + 4 ≤ buf.byteLength := by omega
      rw [scanFrom, anyNonZeroFrom, if_pos hcond, if_pos hcond]
      unfold getUint32LE
      rw [if_pos hread]
      dsimp only
      by_cases hw : wordLE buf i ≠ 0
      · rw [if_pos hw, if_pos hw]
      · rw [if_neg hw, if_neg hw]
        exact ih (i + 4) (by omega)
    · rw [scanFrom, anyNonZeroFrom, if_neg hcond, if_neg hcond]

/-- The pure scan from word index `j` is true exactly when some scanned
word at or after `j` (and before index 256) is nonzero. -/
theorem anyNonZeroFrom_iff (buf : ArrayBuffer) (hlen : 1024 ≤ buf.byteLength) :
    ∀ fuel j, 256 ≤ j + fuel →
      (anyNonZeroFrom buf fuel (4 * j) = true ↔
        ∃ k, j ≤ k ∧ k < 256 ∧ wordLE buf (4 * k) ≠ 0) := by
  intro fuel
  induction fuel with
  | zero =>
    intro j hj
    constructor
    · intro h
      exact absurd h (by rw [anyNonZeroFrom]; simp)
    · rintro ⟨k, hk1, hk2, -⟩
      exfalso
      omega
  | succ fuel ih =>
    intro j hj
    have hmin : min 1024 buf.byteLength = 1024 := Nat.min_eq_left hlen
    by_cases hjlt : j < 256
    · have hcond : 4 * j < min 1024 buf.byteLength := by omega
      rw [anyNonZeroFrom, if_pos hcond]
      by_cases hw : wordLE buf (4 * j) ≠ 0
      · rw [if_pos hw]
        exact ⟨fun _ => ⟨j, Nat.le_refl j, hjlt, hw⟩, fun _ => rfl⟩
      · rw [if_neg hw]
        push_neg at hw
        rw [show 4 * j + 4 = 4 * (j + 1) by omega, ih (j + 1) (by omega)]
        constructor
        · rintro ⟨k, hk1, hk2, hk3⟩
          exact ⟨k, by omega, hk2, hk3⟩
        · rintro ⟨k, hk1, hk2, hk3⟩
          refine ⟨k, ?_, hk2, hk3⟩
          rcases Nat.eq_or_lt_of_le hk1 with heq | hlt
          · exact absurd (heq ▸ hw) hk3
          · omega
    · have hcond : ¬ 4 * j < min 1024 buf.byteLength := by omega
      rw [anyNonZeroFrom, if_neg hcond]
      constructor
      · intro h
        exact absurd h (by simp)
      · rintro ⟨k, hk1, hk2, -⟩
        exfalso
        omega

/-- The 256-word all-zero check, spelled as a universal statement. -/
theorem allScannedWordsZero_iff (buf : ArrayBuffer) :
    allScannedWordsZero buf = true ↔ ∀ k, k < 256 → wordLE buf (4 * k) = 0 := by
  unfold allScannedWordsZero
  rw [List.all_eq_true]
  constructor
  · intro h k hk
    simpa using h k (List.mem_range.mpr hk)
  · intro h x hx
    simpa using h x (List.mem_range.mp hx)

/-- On buffers of at least 1024 bytes the pure scan is the negation of
the all-words-zero check. -/
theorem anyNonZeroFrom_eq_not_all (buf : ArrayBuffer)
    (hlen : 1024 ≤ buf.byteLength) :
    anyNonZeroFrom buf 257 0 = !allScannedWordsZero buf := by
  have h := anyNonZeroFrom_iff buf hlen 257 0 (by omega)
  rw [show 4 * 0 = 0 by omega] at h
  cases hall : allScannedWordsZero buf
  · have hnall : ¬ ∀ k, k < 256 → wordLE buf (4 * k) = 0 := by
      intro hforall
      rw [(allScannedWordsZero_iff buf).mpr hforall] at hall
      exact Bool.noConfusion hall
    push_neg at hnall
    obtain ⟨k, hk, hne⟩ := hnall
    rw [h.mpr ⟨k, Nat.zero_le k, hk, hne⟩]
    rfl
  · have hforall := (allScannedWordsZero_iff buf).mp hall
    have hne : anyNonZeroFrom buf 257 0 ≠ true := by
      intro htrue
      obtain ⟨k, -, hk2, hk3⟩ := h.mp htrue
      exact hk3 (hforall k hk2)
    rw [Bool.eq_false_iff.mpr hne]
    rfl

/-- A size accepted by `validateBackupSize` is within 10 MiB of 512 MiB,
hence at least 502 MiB. -/
theorem sizeValid_large {n : Nat}
    (h : (validateBackupSize n).isValid = true) : 526385152 ≤ n := by
  by_contra hn
  push_neg at hn
  have hgt : ((n : Int) - (BOOTMII_STANDARD_SIZE : Int)).natAbs >
      SIZE_TOLERANCE * 10 := by
    unfold BOOTMII_STANDARD_SIZE SIZE_TOLERANCE
    omega
  simp only [validateBackupSize] at h
  rw [if_pos hgt] at h
  exact Bool.noConfusion h

/-- Claim C4: for every FullBackupImage buffer that passes the size
checks (so holds at least 502 MiB), the validation accepts with no error,
scans the first 1024 bytes in little-endian 4-byte strides without
throwing, and appends exactly the one corrupted-or-blank warning when all
scanned words are zero — the warning never changes acceptance. -/
theorem backupValidation_zero_scan (buf : ArrayBuffer)
    (hsize : (validateBackupSize buf.byteLength).isValid = true) :
    performBackupValidation buf =
      Except.ok { isValid := true
                  message := BackupMessage.blank
                  warnings := if allScannedWordsZero buf then
                    [BackupMessage.zeroContent] else [] } := by
  have hlarge := sizeValid_large hsize
  have hlen : 1024 ≤ buf.byteLength := by omega
  unfold performBackupValidation
  rw [if_neg (by omega : ¬ buf.byteLength = 0)]
  rw [scanFrom_eq_pure buf hlen 257 0 rfl]
  rw [anyNonZeroFrom_eq_not_all buf hlen]
  cases hall : allScannedWordsZero buf <;> rfl

set_option maxRecDepth 8192 in
/-- Witness for C4: a 512 MiB all-zero buffer passes the size check and
is accepted with exactly the corrupted-or-blank warning. -/
theorem backupValidation_zero_scan_witness :
    (validateBackupSize 536870912).isValid = true ∧
    performBackupValidation { byteLength := 536870912, byteAt := fun _ => 0 } =
      Except.ok { isValid := true
                  message := BackupMessage.blank
                  warnings := [BackupMessage.zeroContent] } := by
  have h := backupValidation_zero_scan
    { byteLength := 536870912, byteAt := fun _ => 0 } (by decide)
  refine ⟨by decide, ?_⟩
  rw [h]
  have hz : allScannedWordsZero
      { byteLength := 536870912, byteAt := fun _ => 0 } = true := by decide
  rw [hz]
  rfl

/-- The classification result is a function of the lowercased extension
and the byte length alone. -/
theorem detectFileType_eq (filename : String) (buf : ArrayBuffer) :
    detectFileType filename buf =
      if fileExtension filename = "wad" then
        Except.ok (if 64 ≤ buf.byteLength then some "WAD" else none)
      else if fileExtension filename = "dol" then
        Except.ok (if 256 ≤ buf.byteLength then some "DOL" else none)
      else Except.ok none := by
  unfold detectFileType
  by_cases hw : fileExtension filename = "wad"
  · rw [if_pos hw, if_pos hw, validateWadFile_eq]
    by_cases h64 : 64 ≤ buf.byteLength <;>
      simp [Except.map, h64]
  · rw [if_neg hw, if_neg hw]
    by_cases hd : fileExtension filename = "dol"
    · rw [if_pos hd, if_pos hd, validateDolFile_eq]
      by_cases h256 : 256 ≤ buf.byteLength <;>
        simp [Except.map, h256]
    · rw [if_neg hd, if_neg hd]

/-- Claim C6 (amended): classification is determined by the
case-insensitively matched filename extension together with the buffer's
byte length (through the validators' minimum-size checks) — the bytes of
the buffer never influence the chosen profile; when no extension matches,
the result is null, never an error, and the classifier never throws. -/
theorem detectFileType_ext_and_length_only (filename : String)
    (b1 b2 : ArrayBuffer) (hlen : b1.byteLength = b2.byteLength) :
    detectFileType filename b1 = detectFileType filename b2 ∧
    (fileExtension filename ≠ "wad" → fileExtension filename ≠ "dol" →
      detectFileType filename b1 = Except.ok none) ∧
    ∃ r, detectFileType filename b1 = Except.ok r := by
  refine ⟨?_, ?_, ?_⟩
  · rw [detectFileType_eq, detectFileType_eq, hlen]
  · intro h1 h2
    rw [detectFileType_eq, if_neg h1, if_neg h2]
  · rw [detectFileType_eq]
    split_ifs <;> exact ⟨_, rfl⟩

/-- Witness for C6: two same-length buffers with different contents
classify identically under "game.wad", and an unmatched extension yields
null. -/
theorem detectFileType_ext_and_length_only_witness :
    detectFileType "game.wad" { byteLength := 64, byteAt := fun _ => 0 } =
      detectFileType "game.wad" { byteLength := 64, byteAt := fun _ => 255 } ∧
    detectFileType "notes.txt" { byteLength := 64, byteAt := fun _ => 0 } =
      Except.ok none :=
  ⟨(detectFileType_ext_and_length_only "game.wad"
      { byteLength := 64, byteAt := fun _ => 0 }
      { byteLength := 64, byteAt := fun _ => 255 } rfl).1,
   (detectFileType_ext_and_length_only "notes.txt"
      { byteLength := 64, byteAt := fun _ => 0 }
      { byteLength := 64, byteAt := fun _ => 0 } rfl).2.1 (by decide) (by decide)⟩

/-- Counterexample for C6: with the same filename "a.wad", an empty
buffer classifies to null while a 64-byte buffer classifies to WAD, so
the extension alone does not determine the result — the buffer's length
is consulted through the validators. -/
theorem detectFileType_counterexample :
    detectFileType "a.wad" { byteLength := 0, byteAt := fun _ => 0 } =
      Except.ok none ∧
    detectFileType "a.wad" { byteLength := 64, byteAt := fun _ => 0 } =
      Except.ok (some "WAD") ∧
    detectFileType "a.wad" { byteLength := 0, byteAt := fun _ => 0 } ≠
      detectFileType "a.wad" { byteLength := 64, byteAt := fun _ => 0 } := by
  refine ⟨rfl, rfl, fun hcontra => ?_⟩
  rw [show detectFileType "a.wad" { byteLength := 0, byteAt := fun _ => 0 } =
      Except.ok none from rfl,
    show detectFileType "a.wad" { byteLength := 64, byteAt := fun _ => 0 } =
      Except.ok (some "WAD") from rfl] at hcontra
  exact Option.noConfusion (Except.ok.inj hcontra)

end WebWii
